import Mathlib

/-!
Verification of the RP2040-FreeRTOS `App-IRQs` application (`src/App-IRQs/main.cpp`).

The program is embedded shallowly: the globals shared between the interrupt
handler, the tasks and the timer callback become fields of `SysState`; each
piece of straight-line code from the source becomes a Lean function producing
a list of `Effect`s (the calls it performs, in order) together with the state
update obtained by applying those effects.  Temperatures are modelled as
integers in hundredths of a degree Celsius (the `double` values handled by the
program are exact at that resolution for every value the claims mention).
FreeRTOS kernel primitives (queues, software timers) are not part of the
repository's `src/`, so their semantics are modelled from the spec where
noted.
-/

namespace AppIRQs

/-- Modelled from the spec: the two `FlashToken` byte values
{RAISE = `GPIO_LED_ON`, LOWER = `GPIO_LED_OFF`} defined in the repository's
`main.h` (not under `src/`); §4.2 fixes LOWER for phase A and RAISE for
phase B, and `led_task_gpio` lights the LED exactly on `GPIO_LED_ON`. -/
def GPIO_LED_ON : Nat := 1

/-- Modelled from the spec: the LOWER flash-token byte value (see
`GPIO_LED_ON`). -/
def GPIO_LED_OFF : Nat := 0

/-- Modelled from the spec: the configured upper temperature threshold in
degrees Celsius (`TEMP_UPPER_LIMIT_C` in `main.h`, not under `src/`; the
spec's §8 scenarios use a 24 degree threshold). -/
def TEMP_UPPER_LIMIT_C : Int := 24

/-- Modelled from the spec: the sensor-poll task's fixed delay in ticks
(`SENSOR_TASK_DELAY_TICKS` in `main.h`, not under `src/`); the spec only
requires a fixed positive period. -/
def SENSOR_TASK_DELAY_TICKS : Nat := 20

/-- Modelled from the spec: FreeRTOS tick rate used by `pdMS_TO_TICKS`
(1 kHz, so that the 5000 ms debounce delay is the spec's "approximately
5000 time units"). -/
def configTICK_RATE_HZ : Nat := 1000

/-- Modelled from the spec: the FreeRTOS `pdMS_TO_TICKS` macro,
milliseconds to ticks. -/
def pdMS_TO_TICKS (ms : Nat) : Nat := ms * configTICK_RATE_HZ / 1000

/-- The two queues created in `main` (lines 401-402). -/
inductive QueueId where
  | flip
  | irq
deriving DecidableEq

/-- The GPIO outputs the application drives. -/
inductive Pin where
  | picoLed
  | redLed
  | alertLed
deriving DecidableEq

/-- An armed FreeRTOS software timer: its period in ticks and its
`uxAutoReload` flag (`pdFALSE` for a one-shot timer). -/
structure TimerState where
  periodTicks : Nat
  autoReload : Bool
deriving DecidableEq

/-- One observable action performed by the program: a queue operation, a GPIO
write, a display call, a sensor-driver call, an interrupt enable/disable, a
write to the shared `irq_hit` flag, a timer creation, or a suspension
primitive. -/
inductive Effect where
  | queueSend (q : QueueId) (v : Nat)
  | queueReceiveBlock (q : QueueId)
  | gpioPut (p : Pin) (b : Bool)
  | displayInt (n : Int)
  | displayTmp (t : Int)
  | clearAlert (b : Bool)
  | setIrqEnabled (b : Bool)
  | writeIrqHit (b : Bool)
  | timerCreate (ticks : Nat) (autoReload : Bool)
  | readTicks
  | readSensor
  | delayTicks (n : Nat)
  | sleepMs (n : Nat)
deriving DecidableEq

/-- The program's shared state: the two queues, the interrupt-enable bit for
the alert pin, and the `volatile` globals of `main.cpp` (lines 21-43),
together with `led_task_pico`'s locals `count` and `state` (lines 171-172)
and the three LED outputs. -/
structure SysState where
  flip_queue : List Nat
  irq_queue : List Nat
  irq_enabled : Bool
  irq_hit : Bool
  read_temp : Int
  sensor_good : Bool
  alert_timer : Option TimerState
  count : Int
  state : Bool
  pico_led : Bool
  red_led : Bool
  alert_led : Bool
deriving DecidableEq

/-- Modelled from the spec: FreeRTOS `xQueueSendToBack` with a zero block
time (and its `FromISR` variant) on a bounded queue — appends when there is
room, silently drops the item when the queue is full (§7 "Queue-full on
send"). -/
def xQueueSendToBack (cap : Nat) (q : List Nat) (v : Nat) : List Nat :=
  if q.length < cap then q ++ [v] else q

/-- How each effect transforms the shared state.  Display calls, GPIO reads,
sensor-driver calls and suspension primitives do not touch `SysState`.
The `flip` queue has capacity 4 and the `irq` queue capacity 1
(`main.cpp` lines 401-402). -/
def applyEffect (s : SysState) : Effect → SysState
  | .queueSend .flip v => { s with flip_queue := xQueueSendToBack 4 s.flip_queue v }
  | .queueSend .irq v => { s with irq_queue := xQueueSendToBack 1 s.irq_queue v }
  | .gpioPut .picoLed b => { s with pico_led := b }
  | .gpioPut .redLed b => { s with red_led := b }
  | .gpioPut .alertLed b => { s with alert_led := b }
  | .setIrqEnabled b => { s with irq_enabled := b }
  | .writeIrqHit b => { s with irq_hit := b }
  | .timerCreate ticks auto => { s with alert_timer := some ⟨ticks, auto⟩ }
  | .queueReceiveBlock _ => s
  | .displayInt _ => s
  | .displayTmp _ => s
  | .clearAlert _ => s
  | .readTicks => s
  | .readSensor => s
  | .delayTicks _ => s
  | .sleepMs _ => s

/-- Apply a list of effects in order. -/
def applyTrace (s : SysState) (es : List Effect) : SysState :=
  es.foldl applyEffect s

@[simp] theorem applyTrace_nil (s : SysState) : applyTrace s [] = s := rfl

@[simp] theorem applyTrace_cons (s : SysState) (e : Effect) (es : List Effect) :
    applyTrace s (e :: es) = applyTrace (applyEffect s e) es := rfl

@[simp] theorem applyEffect_queueSend_flip (s : SysState) (v : Nat) :
    applyEffect s (.queueSend .flip v) =
      { s with flip_queue := xQueueSendToBack 4 s.flip_queue v } := rfl

@[simp] theorem applyEffect_queueSend_irq (s : SysState) (v : Nat) :
    applyEffect s (.queueSend .irq v) =
      { s with irq_queue := xQueueSendToBack 1 s.irq_queue v } := rfl

@[simp] theorem applyEffect_gpioPut_picoLed (s : SysState) (b : Bool) :
    applyEffect s (.gpioPut .picoLed b) = { s with pico_led := b } := rfl

@[simp] theorem applyEffect_gpioPut_redLed (s : SysState) (b : Bool) :
    applyEffect s (.gpioPut .redLed b) = { s with red_led := b } := rfl

@[simp] theorem applyEffect_gpioPut_alertLed (s : SysState) (b : Bool) :
    applyEffect s (.gpioPut .alertLed b) = { s with alert_led := b } := rfl

@[simp] theorem applyEffect_setIrqEnabled (s : SysState) (b : Bool) :
    applyEffect s (.setIrqEnabled b) = { s with irq_enabled := b } := rfl

@[simp] theorem applyEffect_writeIrqHit (s : SysState) (b : Bool) :
    applyEffect s (.writeIrqHit b) = { s with irq_hit := b } := rfl

@[simp] theorem applyEffect_timerCreate (s : SysState) (ticks : Nat) (auto : Bool) :
    applyEffect s (.timerCreate ticks auto) = { s with alert_timer := some ⟨ticks, auto⟩ } := rfl

@[simp] theorem applyEffect_queueReceiveBlock (s : SysState) (q : QueueId) :
    applyEffect s (.queueReceiveBlock q) = s := rfl

@[simp] theorem applyEffect_displayInt (s : SysState) (n : Int) :
    applyEffect s (.displayInt n) = s := rfl

@[simp] theorem applyEffect_displayTmp (s : SysState) (t : Int) :
    applyEffect s (.displayTmp t) = s := rfl

@[simp] theorem applyEffect_clearAlert (s : SysState) (b : Bool) :
    applyEffect s (.clearAlert b) = s := rfl

@[simp] theorem applyEffect_readTicks (s : SysState) :
    applyEffect s .readTicks = s := rfl

@[simp] theorem applyEffect_readSensor (s : SysState) :
    applyEffect s .readSensor = s := rfl

@[simp] theorem applyEffect_delayTicks (s : SysState) (n : Nat) :
    applyEffect s (.delayTicks n) = s := rfl

@[simp] theorem applyEffect_sleepMs (s : SysState) (n : Nat) :
    applyEffect s (.sleepMs n) = s := rfl

/-- The ISR `gpio_cb` (lines 143-147): sends the byte `1` (its `static bool
state`, never modified) to `flip_queue` with `xQueueSendToBackFromISR`, then
calls `enable_irq(false)`. -/
def gpio_cb_trace : List Effect :=
  [.queueSend .flip 1, .setIrqEnabled false]

/-- State update performed by one invocation of `gpio_cb`. -/
def gpio_cb (s : SysState) : SysState :=
  applyTrace s gpio_cb_trace

/-- Body of `sensor_clear_task`'s branch after a successful receive
(lines 263-273): on byte `1` it records `irq_hit = true` and calls
`xTimerCreate("ALERT_TIMER", pdMS_TO_TICKS(5000), pdFALSE, 0, timer_fired)`;
on any other byte it does nothing. -/
def sensor_clear_trace (v : Nat) : List Effect :=
  if v = 1 then [.writeIrqHit true, .timerCreate (pdMS_TO_TICKS 5000) false] else []

/-- State update performed by `sensor_clear_task` when it has received the
byte `v` from `irq_queue`.  Modelled from the spec: the FreeRTOS kernel is
not under `src/`; per §3 the timer is "created (armed, one-shot)" by this
call, so `timerCreate` arms the timer. -/
def sensor_clear_step (s : SysState) (v : Nat) : SysState :=
  applyTrace s (sensor_clear_trace v)

/-- The timer callback `timer_fired` (lines 284-298): sets `irq_hit = false`,
then, when `read_temp` is strictly below the threshold, calls
`sensor.clear_alert(false)`, sets `irq_hit = false` again and calls
`enable_irq(true)`.  Temperatures in hundredths of a degree, so the
threshold check is against `TEMP_UPPER_LIMIT_C * 100`. -/
def timer_fired_trace (s : SysState) : List Effect :=
  .writeIrqHit false ::
    (if s.read_temp < TEMP_UPPER_LIMIT_C * 100 then
      [.clearAlert false, .writeIrqHit false, .setIrqEnabled true]
    else [])

/-- State update performed by one run of `timer_fired`. -/
def timer_fired (s : SysState) : SysState :=
  applyTrace s (timer_fired_trace s)

/-- Expiry of the armed timer `t`: a one-shot timer (`autoReload = false`)
becomes dormant, then its callback `timer_fired` runs.  Modelled from the
spec for the kernel part: §3 "fires once after a fixed delay;
destroyed/consumed on firing". -/
def timer_fire_step (s : SysState) (t : TimerState) : SysState :=
  timer_fired { s with alert_timer := if t.autoReload then s.alert_timer else none }

/-- The clamp `display_int` applies to its argument (line 308): values
outside 0..9999 are shown as 9999. -/
def display_int_shown (number : Int) : Int :=
  if number < 0 ∨ number > 9999 then 9999 else number

/-- Modelled from the spec: `Utils::bcd` from the repository's utils module
(not under `src/`) — packs a 0..9999 value into four BCD nibbles. -/
def Utils_bcd (n : Nat) : Nat :=
  n / 1000 % 10 * 4096 + n / 100 % 10 * 256 + n / 10 % 10 * 16 + n % 10

/-- `display_int` (lines 305-317): the four digit writes (digit value,
display position) it performs after clamping. -/
def display_int (number : Int) : List (Nat × Nat) :=
  let bcd_val := Utils_bcd (display_int_shown number).toNat
  [(bcd_val >>> 12 &&& 15, 0), (bcd_val >>> 8 &&& 15, 1),
   (bcd_val >>> 4 &&& 15, 2), (bcd_val &&& 15, 3)]

/-- Result of one executed body of `led_task_pico`'s 500-tick block
(lines 188-203): the new `count` and `state` locals and the effect trace. -/
structure PhaseOut where
  count : Int
  state : Bool
  trace : List Effect
deriving DecidableEq

/-- One executed 500-tick block of `led_task_pico` (lines 188-203): when
`state` is true it turns the Pico LED on and renders `++count`; otherwise it
turns the LED off and renders `read_temp`; then it sends
`state ? GPIO_LED_OFF : GPIO_LED_ON` to `flip_queue`, flips `state`, and
resets `count` to 0 when `count > 9998`. -/
def pico_phase (count : Int) (state : Bool) (read_temp : Int) : PhaseOut :=
  let c1 := if state then count + 1 else count
  let work : List Effect :=
    if state then [.gpioPut .picoLed true, .displayInt c1]
    else [.gpioPut .picoLed false, .displayTmp read_temp]
  let pico_led_state := if state then GPIO_LED_OFF else GPIO_LED_ON
  { count := if c1 > 9998 then 0 else c1,
    state := !state,
    trace := work ++ [.queueSend .flip pico_led_state] }

/-- System-state update of one executed 500-tick block of `led_task_pico`. -/
def led_task_pico_step (s : SysState) : SysState :=
  let out := pico_phase s.count s.state s.read_temp
  applyTrace { s with count := out.count, state := out.state } out.trace

/-- One full iteration of `led_task_pico`'s `while (true)` loop
(lines 181-209): it reads the tick count and, only when 500 ticks have
elapsed (32-bit tick arithmetic), executes the block; the `vTaskDelay` on
line 208 is commented out, so the iteration contains no suspension
primitive. -/
def led_task_pico_iter (thenT nowT : Nat) (count : Int) (state : Bool)
    (read_temp : Int) : List Effect :=
  .readTicks ::
    (if (nowT + 4294967296 - thenT % 4294967296) % 4294967296 ≥ 500 then
      (pico_phase count state read_temp).trace
    else [])

/-- Effects of `led_task_gpio`'s body after receiving byte `v` from
`flip_queue` (lines 224-232): drive the red LED from the received value and
the alert LED from `irq_hit`. -/
def led_task_gpio_trace (v : Nat) (irq_hit : Bool) : List Effect :=
  [.gpioPut .redLed (decide (v = GPIO_LED_ON)), .gpioPut .alertLed irq_hit]

/-- State update of `led_task_gpio` once byte `v` has been received. -/
def led_task_gpio_step (s : SysState) (v : Nat) : SysState :=
  applyTrace s (led_task_gpio_trace v s.irq_hit)

/-- One full iteration of `led_task_gpio`'s loop (lines 222-237): a blocking
receive (`portMAX_DELAY`) followed by the two GPIO writes. -/
def led_task_gpio_iter (v : Nat) (irq_hit : Bool) : List Effect :=
  .queueReceiveBlock .flip :: led_task_gpio_trace v irq_hit

/-- One full iteration of `sensor_read_task`'s loop (lines 246-250): read the
sensor, then `vTaskDelay(SENSOR_TASK_DELAY_TICKS)`. -/
def sensor_read_iter : List Effect :=
  [.readSensor, .delayTicks SENSOR_TASK_DELAY_TICKS]

/-- State update of `sensor_read_task` when the sensor returns `v`. -/
def sensor_read_step (s : SysState) (v : Int) : SysState :=
  { s with read_temp := v }

/-- One full iteration of `sensor_clear_task`'s loop (lines 261-275): a
blocking receive (`portMAX_DELAY`) followed by the received-byte handling. -/
def sensor_clear_iter (v : Nat) : List Effect :=
  .queueReceiveBlock .irq :: sensor_clear_trace v

/-- `main`'s decision on line 405: the scheduler is started when any of the
pico-LED, GPIO-LED or sensor task creations returned `pdPASS`; the alert
task's status is not consulted. -/
def scheduler_starts (pico_task_status gpio_task_status sens_task_status
    alert_task_status : Bool) : Bool :=
  pico_task_status || gpio_task_status || sens_task_status

/-- The fallback blink loop of `main` (lines 409-416), for a given initial
`count`: each pass turns the on-board LED on, sleeps 100 ms, turns it off and
sleeps 100 ms. -/
def blink_fallback : Nat → List Effect
  | 0 => []
  | n + 1 =>
    [.gpioPut .picoLed true, .sleepMs 100, .gpioPut .picoLed false, .sleepMs 100]
      ++ blink_fallback n

/-- The state of the system when the scheduler starts: queues empty, the
interrupt armed exactly when the sensor was detected (`main` line 391),
`irq_hit` false, `read_temp` at its initial 0.0, `count = -1` and
`state = true` (lines 171-172). -/
def initState (sensor_good : Bool) : SysState :=
  { flip_queue := [], irq_queue := [], irq_enabled := sensor_good,
    irq_hit := false, read_temp := 0, sensor_good := sensor_good,
    alert_timer := none, count := -1, state := true,
    pico_led := false, red_led := false, alert_led := false }

/-- The interleaving events of the running system. -/
inductive Event where
  | irqFire
  | alertRecv
  | timerFire
  | sensorRead (v : Int)
  | picoTick
  | gpioRecv
deriving DecidableEq

/-- One scheduler-level step of the system: the ISR firing (only while the
interrupt is enabled), a task consuming the head of a queue, the armed timer
expiring, the sensor task storing a fresh reading, or `led_task_pico`
executing a 500-tick block. -/
inductive Step : SysState → Event → SysState → Prop where
  | irqFire {s : SysState} (h : s.irq_enabled = true) :
      Step s .irqFire (gpio_cb s)
  | alertRecv {s : SysState} (v : Nat) (rest : List Nat)
      (h : s.irq_queue = v :: rest) :
      Step s .alertRecv (sensor_clear_step { s with irq_queue := rest } v)
  | timerFire {s : SysState} (t : TimerState) (h : s.alert_timer = some t) :
      Step s .timerFire (timer_fire_step s t)
  | sensorRead {s : SysState} (v : Int) :
      Step s (.sensorRead v) (sensor_read_step s v)
  | picoTick {s : SysState} :
      Step s .picoTick (led_task_pico_step s)
  | gpioRecv {s : SysState} (v : Nat) (rest : List Nat)
      (h : s.flip_queue = v :: rest) :
      Step s .gpioRecv (led_task_gpio_step { s with flip_queue := rest } v)

/-- States reachable from the post-startup state. -/
def Reachable (sensor_good : Bool) (s : SysState) : Prop :=
  Relation.ReflTransGen (fun a b => ∃ e, Step a e b) (initState sensor_good) s

/-!
## Component lemmas for the step functions
-/

@[simp] theorem gpio_cb_irq_enabled (s : SysState) : (gpio_cb s).irq_enabled = false := rfl

@[simp] theorem gpio_cb_irq_queue (s : SysState) : (gpio_cb s).irq_queue = s.irq_queue := rfl

@[simp] theorem gpio_cb_irq_hit (s : SysState) : (gpio_cb s).irq_hit = s.irq_hit := rfl

@[simp] theorem sensor_clear_step_irq_enabled (s : SysState) (v : Nat) :
    (sensor_clear_step s v).irq_enabled = s.irq_enabled := by
  unfold sensor_clear_step sensor_clear_trace
  split <;> rfl

@[simp] theorem sensor_clear_step_irq_queue (s : SysState) (v : Nat) :
    (sensor_clear_step s v).irq_queue = s.irq_queue := by
  unfold sensor_clear_step sensor_clear_trace
  split <;> rfl

theorem timer_fire_step_irq_enabled (s : SysState) (t : TimerState) :
    (timer_fire_step s t).irq_enabled =
      if s.read_temp < TEMP_UPPER_LIMIT_C * 100 then true else s.irq_enabled := by
  unfold timer_fire_step timer_fired timer_fired_trace
  split <;> split <;> rfl

@[simp] theorem timer_fire_step_irq_queue (s : SysState) (t : TimerState) :
    (timer_fire_step s t).irq_queue = s.irq_queue := by
  unfold timer_fire_step timer_fired timer_fired_trace
  split <;> split <;> rfl

@[simp] theorem timer_fire_step_irq_hit (s : SysState) (t : TimerState) :
    (timer_fire_step s t).irq_hit = false := by
  unfold timer_fire_step timer_fired timer_fired_trace
  split <;> split <;> rfl

@[simp] theorem sensor_read_step_irq_enabled (s : SysState) (v : Int) :
    (sensor_read_step s v).irq_enabled = s.irq_enabled := rfl

@[simp] theorem sensor_read_step_irq_queue (s : SysState) (v : Int) :
    (sensor_read_step s v).irq_queue = s.irq_queue := rfl

@[simp] theorem sensor_read_step_irq_hit (s : SysState) (v : Int) :
    (sensor_read_step s v).irq_hit = s.irq_hit := rfl

@[simp] theorem led_task_pico_step_irq_enabled (s : SysState) :
    (led_task_pico_step s).irq_enabled = s.irq_enabled := by
  unfold led_task_pico_step pico_phase
  cases h : s.state <;> simp [h]

@[simp] theorem led_task_pico_step_irq_queue (s : SysState) :
    (led_task_pico_step s).irq_queue = s.irq_queue := by
  unfold led_task_pico_step pico_phase
  cases h : s.state <;> simp [h]

@[simp] theorem led_task_pico_step_irq_hit (s : SysState) :
    (led_task_pico_step s).irq_hit = s.irq_hit := by
  unfold led_task_pico_step pico_phase
  cases h : s.state <;> simp [h]

@[simp] theorem led_task_gpio_step_irq_enabled (s : SysState) (v : Nat) :
    (led_task_gpio_step s v).irq_enabled = s.irq_enabled := rfl

@[simp] theorem led_task_gpio_step_irq_queue (s : SysState) (v : Nat) :
    (led_task_gpio_step s v).irq_queue = s.irq_queue := rfl

@[simp] theorem led_task_gpio_step_irq_hit (s : SysState) (v : Nat) :
    (led_task_gpio_step s v).irq_hit = s.irq_hit := rfl

/-- Because the interrupt handler misroutes its token to `flip_queue`
(see `gpio_cb_misroutes_token`), nothing ever sends to `irq_queue`: in every
reachable state the Alert Queue is empty and `irq_hit` has never been set. -/
theorem reachable_alert_queue_empty {sg : Bool} {s : SysState}
    (h : Reachable sg s) : s.irq_queue = [] ∧ s.irq_hit = false := by
  induction h with
  | refl => exact ⟨rfl, rfl⟩
  | tail hab hbc ih =>
    obtain ⟨e, hstep⟩ := hbc
    cases hstep with
    | irqFire h1 => simpa using ih
    | alertRecv v rest h1 => rw [ih.1] at h1; simp at h1
    | timerFire t h1 => simpa using ih.1
    | sensorRead v => simpa using ih
    | picoTick => simpa using ih
    | gpioRecv v rest h1 => simpa using ih

/-!
## Claims
-/

/-- Claim C1 (code bug): one invocation of the interrupt handler from the
post-startup state puts its notification byte on `flip_queue` — the capacity-4
mirror queue — while `irq_queue`, the capacity-1 Alert Queue that
`sensor_clear_task` receives from, stays empty (and the handler disables the
interrupt).  The claim and the spec say the byte is enqueued on the Alert
Queue and on no other queue; the call on line 145 names `flip_queue`, so the
alert-consumer task can never receive a token. -/
theorem gpio_cb_misroutes_token :
    (gpio_cb (initState true)).flip_queue = [1] ∧
    (gpio_cb (initState true)).irq_queue = [] ∧
    (gpio_cb (initState true)).irq_enabled = false := by
  decide

/-- Claim C2: when `sensor_clear_task` receives the byte 1 from the queue it
listens on, it sets `irq_hit` to true and arms the one-shot debounce timer
with period `pdMS_TO_TICKS 5000 = 5000` ticks; expiry of that timer leaves it
dormant (`alert_timer = none`), so it fires exactly once. -/
theorem sensor_clear_arms_one_shot_timer (s : SysState) :
    (sensor_clear_step s 1).irq_hit = true ∧
    (sensor_clear_step s 1).alert_timer =
      some { periodTicks := pdMS_TO_TICKS 5000, autoReload := false } ∧
    pdMS_TO_TICKS 5000 = 5000 ∧
    (timer_fire_step (sensor_clear_step s 1)
      { periodTicks := pdMS_TO_TICKS 5000, autoReload := false }).alert_timer = none := by
  refine ⟨rfl, rfl, rfl, ?_⟩
  simp only [timer_fire_step, timer_fired, timer_fired_trace, sensor_clear_step,
    sensor_clear_trace, if_pos rfl, applyTrace_cons, applyTrace_nil,
    applyEffect_writeIrqHit, applyEffect_timerCreate]
  repeat' split
  all_goals simp_all

/-- Claim C3: the timer callback first writes `irq_hit := false`
unconditionally (head of its trace), and `irq_hit` is false afterwards in
every case; when `read_temp` is strictly below the threshold it additionally
calls `clear_alert(false)` on the sensor, writes `irq_hit := false` a second
time and re-enables the interrupt; at or above the threshold it performs no
further action, leaving the interrupt-enable bit unchanged (hence disabled
when it was disabled). -/
theorem timer_fired_clears_then_checks (s : SysState) :
    (timer_fired_trace s).head? = some (.writeIrqHit false) ∧
    (timer_fired s).irq_hit = false ∧
    (if s.read_temp < TEMP_UPPER_LIMIT_C * 100 then
      timer_fired_trace s =
        [.writeIrqHit false, .clearAlert false, .writeIrqHit false, .setIrqEnabled true] ∧
      (timer_fired s).irq_enabled = true
    else
      timer_fired_trace s = [.writeIrqHit false] ∧
      (timer_fired s).irq_enabled = s.irq_enabled) := by
  refine ⟨rfl, ?_, ?_⟩
  · simp only [timer_fired, timer_fired_trace]
    split <;> simp
  · split
    · rename_i h
      simp [timer_fired, timer_fired_trace, if_pos h]
    · rename_i h
      simp [timer_fired, timer_fired_trace, if_neg h]

/-- Claim C4: across every step of the system, the interrupt-enable bit can
only become true through a timer expiry that observes `read_temp` strictly
below the threshold; such an expiry always leaves the interrupt enabled; and
the interrupt handler itself always leaves it disabled. -/
theorem irq_reenable_only_by_timer (s : SysState) (e : Event) (s2 : SysState)
    (h : Step s e s2) :
    (s2.irq_enabled = true →
      s.irq_enabled = true ∨ (e = .timerFire ∧ s.read_temp < TEMP_UPPER_LIMIT_C * 100)) ∧
    (e = .timerFire ∧ s.read_temp < TEMP_UPPER_LIMIT_C * 100 → s2.irq_enabled = true) ∧
    (e = .irqFire → s2.irq_enabled = false) := by
  cases h with
  | irqFire h1 =>
    refine ⟨?_, ?_, ?_⟩
    · intro h2; simp at h2
    · rintro ⟨h2, -⟩; simp at h2
    · intro _; simp
  | alertRecv v rest h1 =>
    refine ⟨?_, ?_, ?_⟩
    · intro h2; simp at h2; exact Or.inl h2
    · rintro ⟨h2, -⟩; simp at h2
    · intro h2; simp at h2
  | timerFire t h1 =>
    rw [timer_fire_step_irq_enabled]
    refine ⟨?_, ?_, ?_⟩
    · intro h2
      by_cases hlt : s.read_temp < TEMP_UPPER_LIMIT_C * 100
      · exact Or.inr ⟨rfl, hlt⟩
      · rw [if_neg hlt] at h2; exact Or.inl h2
    · rintro ⟨-, hlt⟩; rw [if_pos hlt]
    · intro h2; simp at h2
  | sensorRead v =>
    refine ⟨?_, ?_, ?_⟩
    · intro h2; simp at h2; exact Or.inl h2
    · rintro ⟨h2, -⟩; simp at h2
    · intro h2; simp at h2
  | picoTick =>
    refine ⟨?_, ?_, ?_⟩
    · intro h2; simp at h2; exact Or.inl h2
    · rintro ⟨h2, -⟩; simp at h2
    · intro h2; simp at h2
  | gpioRecv v rest h1 =>
    refine ⟨?_, ?_, ?_⟩
    · intro h2; simp at h2; exact Or.inl h2
    · rintro ⟨h2, -⟩; simp at h2
    · intro h2; simp at h2

/-- Witness for C4: a concrete step — the ISR firing from the post-startup
state — satisfies the three conjuncts. -/
theorem irq_reenable_only_by_timer_witness :
    ((gpio_cb (initState true)).irq_enabled = true →
      (initState true).irq_enabled = true ∨
        (Event.irqFire = Event.timerFire ∧
          (initState true).read_temp < TEMP_UPPER_LIMIT_C * 100)) ∧
    (Event.irqFire = Event.timerFire ∧
        (initState true).read_temp < TEMP_UPPER_LIMIT_C * 100 →
      (gpio_cb (initState true)).irq_enabled = true) ∧
    (Event.irqFire = Event.irqFire → (gpio_cb (initState true)).irq_enabled = false) :=
  irq_reenable_only_by_timer (initState true) .irqFire (gpio_cb (initState true))
    (Step.irqFire rfl)

/-- Claim C5: in every reachable state, `irq_hit` true implies the interrupt
is disabled, and every step taken from a reachable state preserves this
invariant.  (In the shipped code the invariant is never even challenged:
because `gpio_cb` misroutes its token — see `gpio_cb_misroutes_token` —
`irq_hit` stays false in every reachable state.) -/
theorem alert_active_implies_irq_disabled (sg : Bool) (s : SysState) (e : Event)
    (s2 : SysState) (h : Reachable sg s) :
    (s.irq_hit = true → s.irq_enabled = false) ∧
    (Step s e s2 → s2.irq_hit = true → s2.irq_enabled = false) := by
  constructor
  · intro hh
    rw [(reachable_alert_queue_empty h).2] at hh
    simp at hh
  · intro hstep hh
    have h2 : Reachable sg s2 := Relation.ReflTransGen.tail h ⟨e, hstep⟩
    rw [(reachable_alert_queue_empty h2).2] at hh
    simp at hh

/-- Witness for C5: the post-startup state is reachable, and a concrete
sensor-read step from it preserves the invariant. -/
theorem alert_active_implies_irq_disabled_witness :
    ((initState true).irq_hit = true → (initState true).irq_enabled = false) ∧
    (Step (initState true) (.sensorRead 0) (sensor_read_step (initState true) 0) →
      (sensor_read_step (initState true) 0).irq_hit = true →
      (sensor_read_step (initState true) 0).irq_enabled = false) :=
  alert_active_implies_irq_disabled true (initState true) (.sensorRead 0)
    (sensor_read_step (initState true) 0) Relation.ReflTransGen.refl

/-- The `count` local of `led_task_pico` after one phase-A block (counter
rendered) followed by one phase-B block (temperature rendered), starting
from count `c`.  The `read_temp` argument does not influence `count`. -/
def picoCountAfterAB (c : Int) : Int :=
  (pico_phase (pico_phase c true 0).count false 0).count

/-- The value of `count` just before the n-th phase-A block: `-1` at task
start (line 171), then stepped by full A+B cycles. -/
def cseqC6 : Nat → Int
  | 0 => -1
  | n + 1 => picoCountAfterAB (cseqC6 n)

/-- The value the display shows during the n-th phase-A block:
`display_int(++count)` renders `count + 1` through `display_int`'s clamp. -/
def dispSeqC6 (n : Nat) : Int :=
  display_int_shown (cseqC6 n + 1)

theorem picoCountAfterAB_eq (c : Int) :
    picoCountAfterAB c = if c + 1 > 9998 then 0 else c + 1 := by
  by_cases h : c + 1 > 9998
  · simp [picoCountAfterAB, pico_phase, h]
  · simp [picoCountAfterAB, pico_phase, h]

theorem cseqC6_closed (n : Nat) :
    cseqC6 n = if n = 0 then (-1 : Int) else (((n - 1) % 9999 : Nat) : Int) := by
  induction n with
  | zero => simp [cseqC6]
  | succ n ih =>
    rw [cseqC6, picoCountAfterAB_eq, ih]
    rcases Nat.eq_zero_or_pos n with hn | hn
    · subst hn; norm_num
    · have hne : n ≠ 0 := by omega
      rw [if_neg hne, if_neg (Nat.succ_ne_zero n)]
      split_ifs with h <;> omega

/-- Claim C6 (amended): `display_int` clamps every shown value into 0..9999,
and the counter the render task displays follows the sequence
0, 1, ..., 9998, 9999, 1, 2, ..., 9999, 1, ...: after the block that displays
9999 the counter is reset to 0 and the next displayed value is 1 — the
sequence wraps from 9999 to 1, not to 0, and 0 is displayed only once, at
startup. -/
theorem counter_display_sequence :
    (∀ m : Int, 0 ≤ display_int_shown m ∧ display_int_shown m ≤ 9999) ∧
    (∀ n : Nat, dispSeqC6 n =
      if n = 0 then 0 else (((n - 1) % 9999 : Nat) : Int) + 1) := by
  constructor
  · intro m
    unfold display_int_shown
    split_ifs <;> omega
  · intro n
    unfold dispSeqC6
    rw [cseqC6_closed]
    rcases Nat.eq_zero_or_pos n with hn | hn
    · subst hn; norm_num [display_int_shown]
    · have hne : n ≠ 0 := by omega
      rw [if_neg hne, if_neg hne]
      have hr : (n - 1) % 9999 < 9999 := Nat.mod_lt _ (by norm_num)
      unfold display_int_shown
      split_ifs <;> omega

/-- Counterexample for Claim C6 as stated: the displayed counter value on
the phase-A block after the one that shows 9999 is 1, not 0 — the sequence
is not 0,1,...,9999,0,1,.... -/
theorem counter_wrap_counterexample :
    dispSeqC6 9999 = 9999 ∧ dispSeqC6 10000 = 1 := by
  constructor <;>
    · unfold dispSeqC6
      rw [cseqC6_closed]
      norm_num [display_int_shown]

/-- Claim C7: in each executed 500-tick block of the render task, the flash
token sent to the mirror queue is the inverse of the indicator action taken
in the same block: the block that turns the Pico LED on (and renders the
counter `c + 1`) sends LOWER (`GPIO_LED_OFF`), and the block that turns it
off (and renders the temperature) sends RAISE (`GPIO_LED_ON`). -/
theorem flash_token_inverse (c : Int) (st : Bool) (tmp : Int) :
    ((Effect.gpioPut .picoLed true ∈ (pico_phase c st tmp).trace) ↔
      (Effect.queueSend .flip GPIO_LED_OFF ∈ (pico_phase c st tmp).trace)) ∧
    ((Effect.gpioPut .picoLed false ∈ (pico_phase c st tmp).trace) ↔
      (Effect.queueSend .flip GPIO_LED_ON ∈ (pico_phase c st tmp).trace)) ∧
    ((Effect.displayInt (c + 1) ∈ (pico_phase c st tmp).trace) ↔
      (Effect.gpioPut .picoLed true ∈ (pico_phase c st tmp).trace)) ∧
    ((Effect.displayTmp tmp ∈ (pico_phase c st tmp).trace) ↔
      (Effect.gpioPut .picoLed false ∈ (pico_phase c st tmp).trace)) := by
  cases st <;> simp [pico_phase, GPIO_LED_ON, GPIO_LED_OFF]

/-- Claim C8 (amended): `main` starts the scheduler exactly when at least one
of the pico-LED, GPIO-LED and sensor task creations succeeded; the alert
task's creation status is ignored by the check on line 405; and the fallback
blinks the on-board LED exactly 5 times before the final idle loop. -/
theorem scheduler_start_condition (p g s a : Bool) :
    (scheduler_starts p g s a = true ↔ (p = true ∨ g = true ∨ s = true)) ∧
    scheduler_starts p g s true = scheduler_starts p g s false ∧
    ((blink_fallback 5).filter
      (fun e => decide (e = Effect.gpioPut .picoLed true))).length = 5 := by
  refine ⟨?_, rfl, by decide⟩
  simp [scheduler_starts, or_assoc]

/-- Counterexample for Claim C8 as stated: when only the alert task is
created (statuses false, false, false, true), at least one task was created,
yet the scheduler is not started — the blink-then-halt fallback is taken. -/
theorem scheduler_ignores_alert_task :
    scheduler_starts false false false true = false := rfl

/-- An effect suspends the calling task exactly when it is a blocking queue
receive (`portMAX_DELAY`) or a `vTaskDelay` with a non-zero tick count. -/
def isBlockingEffect : Effect → Bool
  | .queueReceiveBlock _ => true
  | .delayTicks n => n != 0
  | _ => false

/-- Claim C9 (amended): the GPIO-LED mirror task, the sensor-poll task and
the alert task suspend on every loop iteration (blocking receive or timed
delay), but `led_task_pico` never suspends: its `vTaskDelay` is commented out
(line 208), so every iteration of its loop — whether or not the 500-tick
block runs — contains no suspension primitive; the render task busy-polls. -/
theorem task_suspension_status (v : Nat) (hit : Bool) (thenT nowT : Nat)
    (c : Int) (st : Bool) (tmp : Int) :
    (led_task_gpio_iter v hit).any isBlockingEffect = true ∧
    sensor_read_iter.any isBlockingEffect = true ∧
    (sensor_clear_iter v).any isBlockingEffect = true ∧
    (led_task_pico_iter thenT nowT c st tmp).any isBlockingEffect = false := by
  refine ⟨rfl, by decide, rfl, ?_⟩
  simp only [led_task_pico_iter, List.any_cons]
  split
  · cases st <;> simp [pico_phase, isBlockingEffect]
  · simp [isBlockingEffect]

/-- Counterexample for Claim C9 as stated: a concrete iteration of
`led_task_pico`'s loop (ticks 0, last-run mark 0) contains no suspension —
the task does not suspend on every iteration. -/
theorem pico_task_spins_counterexample :
    (led_task_pico_iter 0 0 (-1) true 0).any isBlockingEffect = false := by
  decide

/-!
## The `display_tmp` rendering loop (lines 325-349)
-/

/-- The ASCII digit character for a decimal digit. -/
def digitChar (n : Nat) : Char := Char.ofNat (48 + n)

/-- Decimal digit characters of a natural number, most significant first
(fuel-indexed helper; `fuel = n + 1` always suffices). -/
def natDigitsAux : Nat → Nat → List Char
  | 0, _ => []
  | fuel + 1, n =>
    if n < 10 then [digitChar n]
    else natDigitsAux fuel (n / 10) ++ [digitChar (n % 10)]

/-- Decimal digit characters of a natural number, most significant first. -/
def natDigits (n : Nat) : List Char := natDigitsAux (n + 1) n

/-- The string `std::fixed << std::setprecision(2) << value` produces
(line 329), for a temperature held exactly in hundredths of a degree: an
optional minus sign, the integer digits, a dot, and exactly two fractional
digits. -/
def fmtFixed2 (v : Int) : List Char :=
  (if v < 0 then ['-'] else []) ++ natDigits (v.natAbs / 100) ++
    ['.', digitChar (v.natAbs % 100 / 10), digitChar (v.natAbs % 10)]

/-- The glyph writes of `display_tmp`'s `for` loop (lines 336-345), as
(character, display position, dot-flag) triples.  The loop condition is
`i < temp.length() || digit == 3`; reading `temp[i]` at `i = temp.length()`
yields the NUL character (guaranteed by `std::string::operator[]`).  A dot
with `digit > 0` re-writes the previous character with the dot flag at
`digit - 1`; any other character is written at `digit`, which then
increments.  `fuel` bounds the iteration count; the loop exits after at most
`temp.length + 1` iterations, so the fuel passed by `display_tmp` is never
exhausted. -/
def tmpWrites (fuel : Nat) (temp : List Char) (i digit : Nat) (prev : Char) :
    List (Char × Nat × Bool) :=
  match fuel with
  | 0 => []
  | fuel + 1 =>
    if i < temp.length ∨ digit = 3 then
      if temp.getD i (Char.ofNat 0) = '.' ∧ 0 < digit then
        (prev, digit - 1, true) :: tmpWrites fuel temp (i + 1) digit prev
      else
        (temp.getD i (Char.ofNat 0), digit, false) ::
          tmpWrites fuel temp (i + 1) (digit + 1) (temp.getD i (Char.ofNat 0))
    else []

/-- All glyph writes of `display_tmp(value)` (lines 325-349): the loop's
writes on the two-decimal formatting of `value`, then the final
`set_alpha('c', 3)`. -/
def display_tmp (value : Int) : List (Char × Nat × Bool) :=
  let temp := fmtFixed2 value
  tmpWrites (temp.length + 2) temp 0 0 (Char.ofNat 0) ++ [('c', 3, false)]

/-- Number of non-dot characters of a string; each one consumes a display
position in `tmpWrites`. -/
def countNonDot (l : List Char) : Nat := (l.filter (fun c => c != '.')).length

theorem countNonDot_drop_succ_le (l : List Char) (i : Nat) :
    countNonDot (l.drop (i + 1)) ≤ countNonDot (l.drop i) := by
  have hs : List.Sublist ((l.drop i).drop 1) (l.drop i) := List.drop_sublist 1 _
  have hsub : List.Sublist (l.drop (i + 1)) (l.drop i) := by
    rw [List.drop_drop] at hs
    simpa [Nat.add_comm] using hs
  simpa [countNonDot] using (hsub.filter (fun c => c != '.')).length_le

theorem countNonDot_drop_of_lt (l : List Char) (i : Nat) (h : i < l.length) :
    countNonDot (l.drop i) =
      (if l.getD i (Char.ofNat 0) = '.' then 0 else 1) + countNonDot (l.drop (i + 1)) := by
  rw [List.getD_eq_getElem l (Char.ofNat 0) h, List.drop_eq_getElem_cons h]
  unfold countNonDot
  rw [List.filter_cons]
  by_cases hc : l[i] = '.'
  · rw [if_pos hc, show (l[i] != '.') = false from by simp [hc]]
    simp
  · rw [if_neg hc, show (l[i] != '.') = true from by simp [hc]]
    rw [if_pos rfl, List.length_cons]
    omega

/-- Every write of the rendering loop started at `digit ≥ 1` lands strictly
below `max 4 (digit + countNonDot (temp.drop i))`: positions grow only when
a non-dot character is consumed, and the padding iteration permitted by the
`digit == 3` disjunct writes at position 3. -/
theorem tmpWrites_pos_bound (temp : List Char) :
    ∀ fuel i digit prev, 1 ≤ digit →
      ∀ w ∈ tmpWrites fuel temp i digit prev,
        w.2.1 < max 4 (digit + countNonDot (temp.drop i)) := by
  intro fuel
  induction fuel with
  | zero =>
    intro i digit prev hd w hw
    simp [tmpWrites] at hw
  | succ fuel ih =>
    intro i digit prev hd w hw
    rw [tmpWrites] at hw
    by_cases hcond : i < temp.length ∨ digit = 3
    · rw [if_pos hcond] at hw
      by_cases hdot : temp.getD i (Char.ofNat 0) = '.' ∧ 0 < digit
      · rw [if_pos hdot] at hw
        have hi : i < temp.length := by
          by_contra hni
          have hgd : temp.getD i (Char.ofNat 0) = Char.ofNat 0 :=
            List.getD_eq_default _ _ (le_of_not_lt hni)
          rw [hgd] at hdot
          exact absurd hdot.1 (by decide)
        have hcnt : countNonDot (temp.drop i) = countNonDot (temp.drop (i + 1)) := by
          rw [countNonDot_drop_of_lt temp i hi, if_pos hdot.1]
          simp
        rcases List.mem_cons.mp hw with rfl | hw2
        · exact lt_max_of_lt_right
            (show digit - 1 < digit + countNonDot (temp.drop i) from by omega)
        · have hrec := ih (i + 1) digit prev hd w hw2
          rwa [hcnt]
      · rw [if_neg hdot] at hw
        rcases List.mem_cons.mp hw with rfl | hw2
        · by_cases hi : i < temp.length
          · have hne : temp.getD i (Char.ofNat 0) ≠ '.' := fun hc => hdot ⟨hc, by omega⟩
            have hone : 1 ≤ countNonDot (temp.drop i) := by
              rw [countNonDot_drop_of_lt temp i hi, if_neg hne]
              omega
            exact lt_max_of_lt_right
              (show digit < digit + countNonDot (temp.drop i) from by omega)
          · have hd3 : digit = 3 := hcond.resolve_left hi
            exact lt_max_of_lt_left (show digit < 4 from by omega)
        · by_cases hi : i < temp.length
          · have hne : temp.getD i (Char.ofNat 0) ≠ '.' := fun hc => hdot ⟨hc, by omega⟩
            have hcnt : countNonDot (temp.drop i) = 1 + countNonDot (temp.drop (i + 1)) := by
              rw [countNonDot_drop_of_lt temp i hi, if_neg hne]
            have hrec := ih (i + 1) (digit + 1) _ (by omega) w hw2
            rw [hcnt, show digit + (1 + countNonDot (temp.drop (i + 1))) =
              digit + 1 + countNonDot (temp.drop (i + 1)) from by omega]
            exact hrec
          · have hd3 : digit = 3 := hcond.resolve_left hi
            have hempty : tmpWrites fuel temp (i + 1) (digit + 1)
                (temp.getD i (Char.ofNat 0)) = [] := by
              cases fuel with
              | zero => rfl
              | succ fuel2 =>
                rw [tmpWrites, if_neg]
                omega
            rw [hempty] at hw2
            simp at hw2
    · rw [if_neg hcond] at hw
      simp at hw

theorem digitChar_ne_dot (n : Nat) (h : n ≤ 9) : digitChar n ≠ '.' := by
  interval_cases n <;> decide

theorem natDigits_lt10 (n : Nat) (h : n < 10) : natDigits n = [digitChar n] := by
  simp only [natDigits, natDigitsAux]
  rw [if_pos h]

theorem natDigits_lt100 (n : Nat) (h10 : 10 ≤ n) (h : n < 100) :
    natDigits n = [digitChar (n / 10), digitChar (n % 10)] := by
  obtain ⟨k, rfl⟩ : ∃ k, n = k + 2 := ⟨n - 2, by omega⟩
  simp only [natDigits, natDigitsAux]
  rw [if_neg (by omega), if_pos (by omega)]
  rfl

theorem countNonDot_nil : countNonDot [] = 0 := rfl

theorem countNonDot_cons (c : Char) (l : List Char) :
    countNonDot (c :: l) = (if c = '.' then 0 else 1) + countNonDot l := by
  unfold countNonDot
  rw [List.filter_cons]
  by_cases hc : c = '.'
  · rw [if_pos hc, show (c != '.') = false from by simp [hc]]
    simp
  · rw [if_neg hc, show (c != '.') = true from by simp [hc], if_pos rfl, List.length_cons]
    omega

theorem countNonDot_digit3 (a b c : Nat) (ha : a ≤ 9) (hb : b ≤ 9) (hc : c ≤ 9) :
    countNonDot [digitChar a, '.', digitChar b, digitChar c] = 3 := by
  rw [countNonDot_cons, countNonDot_cons, countNonDot_cons, countNonDot_cons,
    countNonDot_nil, if_neg (digitChar_ne_dot a ha), if_pos rfl,
    if_neg (digitChar_ne_dot b hb), if_neg (digitChar_ne_dot c hc)]

theorem countNonDot_dot2 (b c : Nat) (hb : b ≤ 9) (hc : c ≤ 9) :
    countNonDot ['.', digitChar b, digitChar c] = 2 := by
  rw [countNonDot_cons, countNonDot_cons, countNonDot_cons, countNonDot_nil,
    if_pos rfl, if_neg (digitChar_ne_dot b hb), if_neg (digitChar_ne_dot c hc)]

/-- For a temperature strictly between -10.00 and 100.00 (in hundredths),
the formatted string starts with a non-dot character and has at most three
non-dot characters after the first one. -/
theorem fmt_shape (v : Int) (h1 : -1000 < v) (h2 : v < 10000) :
    (fmtFixed2 v).getD 0 (Char.ofNat 0) ≠ '.' ∧
    countNonDot ((fmtFixed2 v).drop 1) ≤ 3 ∧ 0 < (fmtFixed2 v).length := by
  by_cases hv : v < 0
  · rw [fmtFixed2, if_pos hv, natDigits_lt10 _ (by omega)]
    refine ⟨?_, ?_, by simp⟩
    · simp only [List.cons_append, List.nil_append, List.getD_cons_zero]
      decide
    · simp only [List.cons_append, List.nil_append, List.drop_succ_cons, List.drop_zero]
      have h3 := countNonDot_digit3 (v.natAbs / 100) (v.natAbs % 100 / 10) (v.natAbs % 10)
        (by omega) (by omega) (by omega)
      omega
  · by_cases hq10 : v.natAbs / 100 < 10
    · rw [fmtFixed2, if_neg hv, natDigits_lt10 _ hq10]
      refine ⟨?_, ?_, by simp⟩
      · simp only [List.cons_append, List.nil_append, List.getD_cons_zero]
        exact digitChar_ne_dot _ (by omega)
      · simp only [List.cons_append, List.nil_append, List.drop_succ_cons, List.drop_zero]
        have h3 := countNonDot_dot2 (v.natAbs % 100 / 10) (v.natAbs % 10)
          (by omega) (by omega)
        omega
    · rw [fmtFixed2, if_neg hv, natDigits_lt100 _ (by omega) (by omega)]
      refine ⟨?_, ?_, by simp⟩
      · simp only [List.cons_append, List.nil_append, List.getD_cons_zero]
        exact digitChar_ne_dot _ (by omega)
      · simp only [List.cons_append, List.nil_append, List.drop_succ_cons, List.drop_zero]
        have h3 := countNonDot_digit3 (v.natAbs / 100 % 10) (v.natAbs % 100 / 10)
          (v.natAbs % 10) (by omega) (by omega) (by omega)
        omega

/-- Claim C10 (amended): for every temperature strictly between -10.00 and
100.00 degrees (values whose two-decimal formatting fits the display),
`display_tmp` writes glyphs only at positions 0 through 3.  Outside that
range the loop runs past the display: see
`display_tmp_overflow_counterexample`. -/
theorem display_tmp_in_bounds (v : Int) (h1 : -1000 < v) (h2 : v < 10000) :
    (display_tmp v).all (fun w => decide (w.2.1 ≤ 3)) = true := by
  obtain ⟨hhead, hcnt, hlen⟩ := fmt_shape v h1 h2
  rw [display_tmp]
  simp only [List.all_append, Bool.and_eq_true]
  constructor
  · rw [List.all_eq_true]
    intro w hw
    rw [show (fmtFixed2 v).length + 2 = ((fmtFixed2 v).length + 1) + 1 from rfl] at hw
    rw [tmpWrites] at hw
    rw [if_pos (Or.inl hlen)] at hw
    rw [if_neg (by simp)] at hw
    rcases List.mem_cons.mp hw with rfl | hw2
    · rfl
    · have hb := tmpWrites_pos_bound (fmtFixed2 v) ((fmtFixed2 v).length + 1) 1 1
        ((fmtFixed2 v).getD 0 (Char.ofNat 0)) (le_refl 1) w hw2
      rw [max_eq_left (by omega)] at hb
      simp only [decide_eq_true_eq]
      omega
  · decide

/-- Witness for C10 (amended): at 20.50 degrees every glyph write of
`display_tmp` is at a position at most 3. -/
theorem display_tmp_in_bounds_witness :
    (display_tmp 2050).all (fun w => decide (w.2.1 ≤ 3)) = true :=
  display_tmp_in_bounds 2050 (by decide) (by decide)

/-- Counterexample for Claim C10 as stated: at 100.00 degrees the formatted
string "100.00" has five non-dot characters, and `display_tmp` performs a
glyph write at position 4, beyond the display's last position 3. -/
theorem display_tmp_overflow_counterexample :
    (display_tmp 10000).any (fun w => decide (3 < w.2.1)) = true := by
  decide

end AppIRQs
